import Mathlib

/-!
Verification of the Modbus RTU request decoder (`modbus-rs`).

The Rust sources are shallowly embedded:
* bytes are `Nat` values (`< 256` where a claim needs it);
* a read grant of the `bbqueue` ring is the list of committed, unread bytes;
* Rust panics (out-of-bounds slicing, `unwrap_or_else(|_| panic!())`,
  `unimplemented!`) are explicit `none` / `.panic` / `.panicked` outcomes.
-/

set_option maxRecDepth 20000

deriving instance DecidableEq for Except

namespace ModbusRs

/-- Modelled from the spec: `error.rs` is not among the sources (only
`use crate::error::Error` appears); §7 of the design fixes the taxonomy as
`Crc`, `UnknownFunction(u8)` and `Overflow`, and `request.rs` constructs
`Error::Crc` and `Error::UnknownFunction(f)`. -/
inductive Error where
  | Crc : Error
  | UnknownFunction (code : Nat) : Error
  | Overflow : Error
  deriving DecidableEq, Repr

/-- From `data.rs`: `CoilState { On = 0xFF00, Off = 0x0000 }`. -/
inductive CoilState where
  | On : CoilState
  | Off : CoilState
  deriving DecidableEq, Repr

/-- From `data.rs`: `CoilStore` holds the full read grant (`data`) together with
the logical coil `count`.  `parse_frame` hands it the *entire* grant, whose
byte 0 is the slave-address byte of the frame. -/
structure CoilStore where
  data : List Nat
  count : Nat
  deriving DecidableEq, Repr

/-- From `data.rs`: `RegisterStore` holds the full read grant. -/
structure RegisterStore where
  data : List Nat
  deriving DecidableEq, Repr

/-- From `request.rs`: the eight request variants. -/
inductive Request where
  | ReadCoil (address count : Nat)
  | ReadInput (address count : Nat)
  | ReadOutputRegisters (address count : Nat)
  | ReadInputRegisters (address count : Nat)
  | SetCoil (address : Nat) (status : CoilState)
  | SetRegister (address value : Nat)
  | SetCoils (address count : Nat) (coils : CoilStore)
  | SetRegisters (address count : Nat) (registers : RegisterStore)
  deriving DecidableEq, Repr

/-- From `request.rs`: `RequestFrame { slave_id, request }`. -/
structure RequestFrame where
  slave_id : Nat
  request : Request
  deriving DecidableEq, Repr

/-- Outcome of `RequestFrame::parse_frame`: success, a returned error, or a
Rust panic (out-of-bounds slice index / `try_into` unwrap). -/
inductive ParseOutcome where
  | ok (f : RequestFrame)
  | err (e : Error)
  | panic
  deriving DecidableEq, Repr

/-- One LSB-first division round of the Modbus CRC-16 (polynomial 0xA001). -/
def crcRound (c : Nat) : Nat :=
  if c % 2 = 1 then (c / 2) ^^^ 0xA001 else c / 2

/-- Fold one byte into the CRC state: XOR it in, then eight rounds.
Embeds `crc16::State::<crc16::MODBUS>` of the `crc16` crate. -/
def crcByte (c b : Nat) : Nat :=
  crcRound (crcRound (crcRound (crcRound (crcRound (crcRound (crcRound (crcRound (c ^^^ b))))))))

/-- Embeds `crc16::State::<MODBUS>::calculate`: init 0xFFFF, no final XOR. -/
def crc16 (data : List Nat) : Nat :=
  data.foldl crcByte 0xFFFF

/-- From `general.rs`: `crc_valid` — the CRC over data-with-appended-CRC is 0. -/
def crc_valid (data : List Nat) : Bool :=
  crc16 data == 0

/-- From `request.rs`: `parse_read_request` — big-endian `u16`s at `data[0..2]`
and `data[2..4]`; panics (`none`) when `data` has fewer than 4 bytes. -/
def parse_read_request (data : List Nat) : Option (Nat × Nat) :=
  match data with
  | a :: b :: c :: d :: _ => some (a * 256 + b, c * 256 + d)
  | _ => none

/-- The `match function_id` dispatch inside `parse_frame` (functions 1-6,
15, 16, and the unknown-function fallthrough).  `rgr` is the whole grant:
the code moves it into `CoilStore` / `RegisterStore` untruncated. -/
def parseDispatch (rgr : List Nat) (slaveId functionId : Nat) (data : List Nat) :
    ParseOutcome :=
  if functionId = 1 then
    match parse_read_request data with
    | some (address, count) => .ok ⟨slaveId, .ReadCoil address count⟩
    | none => .panic
  else if functionId = 2 then
    match parse_read_request data with
    | some (address, count) => .ok ⟨slaveId, .ReadInput address count⟩
    | none => .panic
  else if functionId = 3 then
    match parse_read_request data with
    | some (address, count) => .ok ⟨slaveId, .ReadOutputRegisters address count⟩
    | none => .panic
  else if functionId = 4 then
    match parse_read_request data with
    | some (address, count) => .ok ⟨slaveId, .ReadInputRegisters address count⟩
    | none => .panic
  else if functionId = 5 then
    match parse_read_request data with
    | some (address, status) =>
        .ok ⟨slaveId, .SetCoil address (if status = 0xFF00 then .On else .Off)⟩
    | none => .panic
  else if functionId = 6 then
    match parse_read_request data with
    | some (address, value) => .ok ⟨slaveId, .SetRegister address value⟩
    | none => .panic
  else if functionId = 15 then
    match parse_read_request data with
    | some (address, count) => .ok ⟨slaveId, .SetCoils address count ⟨rgr, count⟩⟩
    | none => .panic
  else if functionId = 16 then
    match parse_read_request data with
    | some (address, count) => .ok ⟨slaveId, .SetRegisters address count ⟨rgr⟩⟩
    | none => .panic
  else .err (.UnknownFunction functionId)

/-- From `request.rs`: `RequestFrame::parse_frame`.  The CRC is checked over
`&rgr[..frame_len]` (a panic — `.panic` — when `frame_len > rgr.len()`);
then `rgr[0]` and `rgr[1]` are read (a panic when the grant has fewer than
2 bytes), `data = &rgr[2..frame_len]` is taken (a panic when
`frame_len < 2`), and the function id is dispatched on. -/
def parseFrame (rgr : List Nat) (frameLen : Nat) : ParseOutcome :=
  if frameLen ≤ rgr.length then
    if crc16 (rgr.take frameLen) ≠ 0 then .err .Crc
    else if 2 ≤ rgr.length then
      if 2 ≤ frameLen then
        parseDispatch rgr (rgr.getD 0 0) (rgr.getD 1 0)
          ((rgr.drop 2).take (frameLen - 2))
      else .panic
    else .panic
  else .panic

/-- Watermark model: `parse_frame` executes `rgr.to_release(frame_len)` before anything else
and never changes the watermark afterwards: whatever the outcome, the
auto-release grant releases `frame_len` bytes when dropped. -/
def parseFrameReleased (_rgr : List Nat) (frameLen : Nat) : Nat :=
  frameLen

/-- From `request.rs`: `RequestFrame::parse_request_len`.  `data.getD 1 0` is
`data[1]` (in bounds once `data.len() ≥ 2`); the first range pattern is
`READ_COIL..=SET_REGISTER`, i.e. `1..=6`; `SET_COILS | SET_REGISTERS` is
`15 | 16` with the byte count at `data[6]`. -/
def parseRequestLen (data : List Nat) : Except Error (Option Nat) :=
  if data.length < 2 then .ok none
  else if 1 ≤ data.getD 1 0 ∧ data.getD 1 0 ≤ 6 then .ok (some 8)
  else if data.getD 1 0 = 15 ∨ data.getD 1 0 = 16 then
    if data.length > 6 then .ok (some (9 + data.getD 6 0)) else .ok none
  else .error (.UnknownFunction (data.getD 1 0))

/-- From `data.rs`: `CoilStore::iter` slices `&self.data[0..(count + (8-1))/8]`
(a panic — `none` — if the grant is shorter) and `CoilIterator` then
yields, for each `i < count`, bit `i % 8` of sliced byte `i / 8` (always in
bounds of the slice). -/
def coilIter (cs : CoilStore) : Option (List CoilState) :=
  if (cs.count + (8 - 1)) / 8 ≤ cs.data.length then
    some ((List.range cs.count).map fun i =>
      if ((cs.data.take ((cs.count + (8 - 1)) / 8)).getD (i / 8) 0) >>> (i % 8) &&& 1 = 1
      then .On else .Off)
  else none

/-- From `data.rs`: `RegisterStore::iter` is `data.chunks(2)` mapped through
`u16::from_be_bytes(chunk.try_into().unwrap_or_default())`; an odd trailing
byte fails the `try_into` and decodes as the default 0. -/
def regChunks : List Nat → List Nat
  | a :: b :: rest => (a * 256 + b) :: regChunks rest
  | _ :: [] => [0]
  | [] => []

/-- The values of `RegisterStore::iter`, as a list. -/
def regIter (rs : RegisterStore) : List Nat :=
  regChunks rs.data

/-- From `data.rs`: `RegisterStore::len` is `data.len() / 2`. -/
def regLen (rs : RegisterStore) : Nat :=
  rs.data.length / 2

/-- The observable state of `Modbus<S>`: the ring's capacity, its committed
unread bytes (the producer and consumer endpoints of the `bbqueue`), and
`needed_bytes`.  The waker is not modelled (single consumer, no executor). -/
structure ModbusState where
  cap : Nat
  buffer : List Nat
  needed : Option Nat
  deriving DecidableEq, Repr

/-- From `modbus.rs`: `Modbus::on_data_received`.  `grant_exact(data.len())` is
modelled as succeeding exactly when the chunk fits into the free space
(wraparound splitting is not modelled; the source marks it TODO);
on failure the source runs `unwrap_or_else(|_| panic!())` — outcome `none`.
On success the bytes are copied and committed; `needed_bytes` is untouched
(the rest of the function only wakes the stored waker). -/
def onDataReceived (m : ModbusState) (data : List Nat) : Option ModbusState :=
  if m.buffer.length + data.length ≤ m.cap then
    some ⟨m.cap, m.buffer ++ data, m.needed⟩
  else none

/-- Result of one `RequestFuture::poll`: a ready parse outcome, pending, or
the `unimplemented!` panic of the unknown-function arm. -/
inductive PollResult where
  | ready (r : ParseOutcome)
  | pending
  | panicked
  deriving DecidableEq, Repr

/-- From `modbus.rs`: `RequestFuture::poll`.
`Some(frame_len)` branch: the grant is converted to auto-release with
watermark `frame_len` before the length test, so on the insufficient path
the drop still releases `min(frame_len, len)` bytes (`List.drop` clamps the
same way).  `None` branch: consult `parse_request_len`; store the length;
parse inline when enough bytes are present; `Err` hits `unimplemented!`. -/
def pollOnce (m : ModbusState) : PollResult × ModbusState :=
  match m.needed with
  | some frameLen =>
    if frameLen ≤ m.buffer.length then
      (.ready (parseFrame m.buffer frameLen), ⟨m.cap, m.buffer.drop frameLen, none⟩)
    else
      (.pending, ⟨m.cap, m.buffer.drop frameLen, some frameLen⟩)
  | none =>
    match parseRequestLen m.buffer with
    | .ok (some frameLen) =>
      if frameLen ≤ m.buffer.length then
        (.ready (parseFrame m.buffer frameLen), ⟨m.cap, m.buffer.drop frameLen, none⟩)
      else
        (.pending, ⟨m.cap, m.buffer, some frameLen⟩)
    | .ok none => (.pending, ⟨m.cap, m.buffer, none⟩)
    | .error _ => (.panicked, m)

/-- Feed a list of chunks through `on_data_received` in order; `none` as
soon as one call panics. -/
def ingestAll : ModbusState → List (List Nat) → Option ModbusState
  | m, [] => some m
  | m, c :: cs => (onDataReceived m c).bind (fun m1 => ingestAll m1 cs)

/-- Runs `k` successive pulls (one `poll` each, as when all data precedes the
pulls): the list of results and the final state. -/
def pullSeq : ModbusState → Nat → List PollResult × ModbusState
  | m, 0 => ([], m)
  | m, k + 1 =>
    let (r, m1) := pollOnce m
    let (rs, m2) := pullSeq m1 k
    (r :: rs, m2)

/-- The length oracle as claim C6 words it (spec side, for comparison with
`parseRequestLen`): insufficient data below 2 bytes; 8 for functions 1-6;
for 15 and 16 insufficient data up to 6 bytes, else `9 + s[6]`; unknown
function otherwise. -/
def lengthOracleClaim (s : List Nat) : Except Error (Option Nat) :=
  if s.length < 2 then .ok none
  else if s.getD 1 0 ∈ [1, 2, 3, 4, 5, 6] then .ok (some 8)
  else if s.getD 1 0 = 15 ∨ s.getD 1 0 = 16 then
    if s.length ≤ 6 then .ok none else .ok (some (9 + s.getD 6 0))
  else .error (.UnknownFunction (s.getD 1 0))

lemma parse_read_request_isSome (l : List Nat) (h : 4 ≤ l.length) :
    ∃ p, parse_read_request l = some p := by
  match l, h with
  | a :: b :: c :: d :: rest, _ => exact ⟨(a * 256 + b, c * 256 + d), rfl⟩

lemma parseDispatch_ne_crc (rgr : List Nat) (s f : Nat) (data : List Nat) :
    parseDispatch rgr s f data ≠ .err .Crc := by
  unfold parseDispatch
  split_ifs <;> first
    | (split <;> simp)
    | simp

lemma parseDispatch_ne_panic (rgr : List Nat) (s f : Nat) (data : List Nat)
    (h : ∃ p, parse_read_request data = some p) :
    parseDispatch rgr s f data ≠ .panic := by
  obtain ⟨⟨a, c⟩, hp⟩ := h
  unfold parseDispatch
  split_ifs <;> simp [hp]

/-- C1 (failing input evaluated): on the CRC-valid function-15 frame
`11 0F 00 13 00 0A 02 CD 01 BF 0B`, `parse_frame` does return `SetCoils`
with address `0x13` and count `10`, but the `CoilStore` it builds holds the
whole grant from frame byte 0, so iterating yields the bits of the header
bytes `11 0F` — `[On,Off,Off,Off,On,Off,Off,Off,On,On]` — and not the bits
of the coil-data bytes `CD 01` — `[On,Off,On,On,Off,Off,On,On,On,Off]` —
that the claim (and the repository's own `fn15` test) require. -/
theorem fn15_coil_view_reads_header_bytes :
    parseFrame [17, 15, 0, 19, 0, 10, 2, 205, 1, 191, 11] 11 =
      .ok ⟨17, .SetCoils 19 10 ⟨[17, 15, 0, 19, 0, 10, 2, 205, 1, 191, 11], 10⟩⟩
    ∧ coilIter ⟨[17, 15, 0, 19, 0, 10, 2, 205, 1, 191, 11], 10⟩ =
      some [.On, .Off, .Off, .Off, .On, .Off, .Off, .Off, .On, .On]
    ∧ ([CoilState.On, .Off, .Off, .Off, .On, .Off, .Off, .Off, .On, .On] ≠
      [CoilState.On, .Off, .On, .On, .Off, .Off, .On, .On, .On, .Off]) := by
  decide

/-- C2 (failing input evaluated): on the CRC-valid function-16 frame
`11 10 00 01 00 02 04 00 0A 01 02 C6 F0` (count 2, data bytes
`00 0A 01 02`), `parse_frame` returns `SetRegisters`, but the
`RegisterStore` holds the whole 13-byte grant: its `len()` is `13/2 = 6`
(not `count = 2`) and its iterator yields the seven values
`[0x1110, 1, 2, 0x0400, 0x0A01, 0x02C6, 0]` decoded from frame byte 0 on
(the odd trailing byte decoding as the default 0), not the two values
`[0x000A, 0x0102]` the claim requires. -/
theorem fn16_register_view_reads_whole_grant :
    parseFrame [17, 16, 0, 1, 0, 2, 4, 0, 10, 1, 2, 198, 240] 13 =
      .ok ⟨17, .SetRegisters 1 2 ⟨[17, 16, 0, 1, 0, 2, 4, 0, 10, 1, 2, 198, 240]⟩⟩
    ∧ regIter ⟨[17, 16, 0, 1, 0, 2, 4, 0, 10, 1, 2, 198, 240]⟩ =
      [4368, 1, 2, 1024, 2561, 710, 0]
    ∧ regLen ⟨[17, 16, 0, 1, 0, 2, 4, 0, 10, 1, 2, 198, 240]⟩ = 6
    ∧ ([4368, 1, 2, 1024, 2561, 710, 0] ≠ [10, 258])
    ∧ (6 ≠ 2) := by
  decide

/-- C3 (failing input evaluated): with the ring holding the two committed
bytes `11 07` (function byte 7, outside the known set) and `needed_bytes`
unset, one poll of `next()` hits the `unimplemented!` arm and panics; it
does not return `Err(UnknownFunction(7))` as the claim requires. -/
theorem unknown_function_poll_panics :
    pollOnce ⟨64, [17, 7], none⟩ = (.panicked, ⟨64, [17, 7], none⟩)
    ∧ (pollOnce ⟨64, [17, 7], none⟩).1 ≠ .ready (.err (.UnknownFunction 7)) := by
  decide

/-- C4 (failing input evaluated): with a ring of capacity 8 holding 5
committed bytes, `on_data_received` of a 4-byte chunk cannot obtain a write
grant; the source then runs `unwrap_or_else(|_| panic!())` (outcome
`none`), instead of dropping the chunk and returning with the ring state
unchanged as the claim requires. -/
theorem on_data_received_overflow_panics :
    onDataReceived ⟨8, [1, 2, 3, 4, 5], none⟩ [9, 9, 9, 9] = none
    ∧ onDataReceived ⟨8, [1, 2, 3, 4, 5], none⟩ [9, 9, 9, 9] ≠
      some ⟨8, [1, 2, 3, 4, 5], none⟩ := by
  decide

/-- C6: `parse_request_len` computes exactly the length oracle of the
claim — insufficient data below 2 bytes, 8 for functions 1-6, for 15 and
16 insufficient data up to 6 bytes and `9 + s[6]` beyond, and
`UnknownFunction` otherwise; it is a pure function of the slice. -/
theorem parse_request_len_matches_oracle (s : List Nat) :
    parseRequestLen s = lengthOracleClaim s := by
  unfold parseRequestLen lengthOracleClaim
  by_cases h2 : s.length < 2
  · rw [if_pos h2, if_pos h2]
  · rw [if_neg h2, if_neg h2]
    by_cases hf : 1 ≤ s.getD 1 0 ∧ s.getD 1 0 ≤ 6
    · have hm : s.getD 1 0 ∈ [1, 2, 3, 4, 5, 6] := by
        simp only [List.mem_cons, List.not_mem_nil, or_false]
        omega
      rw [if_pos hf, if_pos hm]
    · have hm : s.getD 1 0 ∉ [1, 2, 3, 4, 5, 6] := by
        simp only [List.mem_cons, List.not_mem_nil, or_false]
        omega
      rw [if_neg hf, if_neg hm]
      by_cases h15 : s.getD 1 0 = 15 ∨ s.getD 1 0 = 16
      · rw [if_pos h15, if_pos h15]
        by_cases h6 : s.length > 6
        · rw [if_pos h6, if_neg (by omega : ¬ s.length ≤ 6)]
        · rw [if_neg h6, if_pos (by omega : s.length ≤ 6)]
      · rw [if_neg h15, if_neg h15]

/-- C10: `parse_request_len` depends only on the slice length, the byte at
index 1, and — when the length is at least 7 and the function byte is 15
or 16 — the byte at index 6; every other byte (the slave address included)
never influences the result. -/
theorem parse_request_len_noninterference (s t : List Nat)
    (hlen : s.length = t.length) (h1 : s.getD 1 0 = t.getD 1 0)
    (h6 : 7 ≤ s.length → s.getD 1 0 = 15 ∨ s.getD 1 0 = 16 →
      s.getD 6 0 = t.getD 6 0) :
    parseRequestLen s = parseRequestLen t := by
  unfold parseRequestLen
  rw [hlen, h1]
  by_cases h2 : t.length < 2
  · rw [if_pos h2, if_pos h2]
  · rw [if_neg h2, if_neg h2]
    by_cases hf : 1 ≤ t.getD 1 0 ∧ t.getD 1 0 ≤ 6
    · rw [if_pos hf, if_pos hf]
    · rw [if_neg hf, if_neg hf]
      by_cases h15 : t.getD 1 0 = 15 ∨ t.getD 1 0 = 16
      · rw [if_pos h15, if_pos h15]
        by_cases hl6 : t.length > 6
        · have hgd : s.getD 6 0 = t.getD 6 0 := by
            refine h6 (by omega) ?_
            rw [h1]
            exact h15
          rw [if_pos hl6, if_pos hl6, hgd]
        · rw [if_neg hl6, if_neg hl6]
      · rw [if_neg h15, if_neg h15]

/-- C5: `parse_frame` returns `Err(Crc)` exactly when the Modbus CRC-16
over the first `len` bytes of the grant is nonzero; the release watermark
is `len` whatever the outcome (the malformed frame is discarded whole);
and no frame with a bad CRC is ever returned `Ok`. -/
theorem parse_frame_crc_soundness (rgr : List Nat) (len : Nat)
    (h4 : 4 ≤ len) (hlen : len ≤ rgr.length) :
    (parseFrame rgr len = .err .Crc ↔ crc16 (rgr.take len) ≠ 0)
    ∧ parseFrameReleased rgr len = len
    ∧ (crc16 (rgr.take len) ≠ 0 → ∀ f, parseFrame rgr len ≠ .ok f) := by
  have h2l : 2 ≤ rgr.length := by omega
  refine ⟨?_, rfl, ?_⟩
  · by_cases hc : crc16 (rgr.take len) = 0
    · have hne : parseFrame rgr len ≠ .err .Crc := by
        unfold parseFrame
        rw [if_pos hlen, if_neg (not_not_intro hc), if_pos h2l,
          if_pos (by omega : 2 ≤ len)]
        exact parseDispatch_ne_crc _ _ _ _
      exact iff_of_false hne (not_not_intro hc)
    · have heq : parseFrame rgr len = .err .Crc := by
        unfold parseFrame
        rw [if_pos hlen, if_pos hc]
      exact iff_of_true heq hc
  · intro hc f
    have heq : parseFrame rgr len = .err .Crc := by
      unfold parseFrame
      rw [if_pos hlen, if_pos hc]
    simp [heq]

/-- C5 witness: the test frame `11 01 00 13 00 25 0E 85` with its last CRC
byte corrupted has a nonzero CRC remainder, is rejected with `Err(Crc)`,
and releases all 8 bytes. -/
theorem parse_frame_crc_soundness_witness :
    (parseFrame [17, 1, 0, 19, 0, 37, 14, 133] 8 = .err .Crc ↔
      crc16 (([17, 1, 0, 19, 0, 37, 14, 133] : List Nat).take 8) ≠ 0)
    ∧ parseFrameReleased [17, 1, 0, 19, 0, 37, 14, 133] 8 = 8
    ∧ (crc16 (([17, 1, 0, 19, 0, 37, 14, 133] : List Nat).take 8) ≠ 0 →
      ∀ f, parseFrame [17, 1, 0, 19, 0, 37, 14, 133] 8 ≠ .ok f) :=
  parse_frame_crc_soundness _ 8 (by decide) (by decide)

lemma parseFrame_eight (b0 b1 b2 b3 b4 b5 b6 b7 : Nat)
    (hcrc : crc16 [b0, b1, b2, b3, b4, b5, b6, b7] = 0) :
    parseFrame [b0, b1, b2, b3, b4, b5, b6, b7] 8 =
      parseDispatch [b0, b1, b2, b3, b4, b5, b6, b7] b0 b1 [b2, b3, b4, b5, b6, b7] := by
  unfold parseFrame
  rw [if_pos (show (8 : Nat) ≤ ([b0, b1, b2, b3, b4, b5, b6, b7] : List Nat).length by simp)]
  rw [if_neg (not_not_intro
    (show crc16 (List.take 8 [b0, b1, b2, b3, b4, b5, b6, b7]) = 0 from hcrc))]
  rfl

/-- C7: on a CRC-valid 8-byte frame with function byte 1-6, `parse_frame`
returns the matching variant with `slave_id` byte 0, the address decoded
big-endian from bytes 2-3 and the second field from bytes 4-5; for
function 5 the status maps to `On` exactly on 0xFF00. -/
theorem parse_frame_simple_functions (b0 b1 b2 b3 b4 b5 b6 b7 : Nat)
    (hcrc : crc16 [b0, b1, b2, b3, b4, b5, b6, b7] = 0) :
    (b1 = 1 → parseFrame [b0, b1, b2, b3, b4, b5, b6, b7] 8 =
      .ok ⟨b0, .ReadCoil (b2 * 256 + b3) (b4 * 256 + b5)⟩)
    ∧ (b1 = 2 → parseFrame [b0, b1, b2, b3, b4, b5, b6, b7] 8 =
      .ok ⟨b0, .ReadInput (b2 * 256 + b3) (b4 * 256 + b5)⟩)
    ∧ (b1 = 3 → parseFrame [b0, b1, b2, b3, b4, b5, b6, b7] 8 =
      .ok ⟨b0, .ReadOutputRegisters (b2 * 256 + b3) (b4 * 256 + b5)⟩)
    ∧ (b1 = 4 → parseFrame [b0, b1, b2, b3, b4, b5, b6, b7] 8 =
      .ok ⟨b0, .ReadInputRegisters (b2 * 256 + b3) (b4 * 256 + b5)⟩)
    ∧ (b1 = 5 → parseFrame [b0, b1, b2, b3, b4, b5, b6, b7] 8 =
      .ok ⟨b0, .SetCoil (b2 * 256 + b3)
        (if b4 * 256 + b5 = 0xFF00 then .On else .Off)⟩)
    ∧ (b1 = 6 → parseFrame [b0, b1, b2, b3, b4, b5, b6, b7] 8 =
      .ok ⟨b0, .SetRegister (b2 * 256 + b3) (b4 * 256 + b5)⟩) := by
  refine ⟨?_, ?_, ?_, ?_, ?_, ?_⟩ <;> intro h1 <;> subst h1 <;>
    rw [parseFrame_eight _ _ _ _ _ _ _ _ hcrc] <;> rfl

/-- C7 witness: the repository's `fn1_crc_correct` frame
`11 01 00 13 00 25 0E 84` decodes to `ReadCoil` with address `0x13` and
count `0x25`. -/
theorem parse_frame_simple_functions_witness :
    crc16 [17, 1, 0, 19, 0, 37, 14, 132] = 0
    ∧ parseFrame [17, 1, 0, 19, 0, 37, 14, 132] 8 = .ok ⟨17, .ReadCoil 19 37⟩ :=
  ⟨by decide, (parse_frame_simple_functions 17 1 0 19 0 37 14 132 (by decide)).1 rfl⟩

lemma ingestAll_join (m : ModbusState) (chunks : List (List Nat))
    (hm : m.buffer.length ≤ m.cap) :
    ingestAll m chunks = onDataReceived m chunks.flatten := by
  induction chunks generalizing m with
  | nil =>
    unfold ingestAll onDataReceived
    rw [if_pos (by simpa using hm)]
    simp
  | cons c cs ih =>
    unfold ingestAll
    by_cases hc : m.buffer.length + c.length ≤ m.cap
    · rw [show onDataReceived m c = some ⟨m.cap, m.buffer ++ c, m.needed⟩ by
        unfold onDataReceived
        rw [if_pos hc]]
      rw [Option.some_bind]
      have hm1 : (⟨m.cap, m.buffer ++ c, m.needed⟩ : ModbusState).buffer.length ≤
          (⟨m.cap, m.buffer ++ c, m.needed⟩ : ModbusState).cap := by
        simp only [List.length_append]
        omega
      rw [ih _ hm1]
      unfold onDataReceived
      simp only [List.length_append, List.append_assoc, List.flatten_cons, Nat.add_assoc]
    · rw [show onDataReceived m c = none by
        unfold onDataReceived
        rw [if_neg hc]]
      rw [Option.none_bind]
      unfold onDataReceived
      rw [if_neg (by simp only [List.flatten_cons, List.length_append]; omega)]

/-- C8: feeding a partition of a byte stream chunk by chunk through
`on_data_received` leaves `Modbus` in exactly the state that feeding the
whole stream in one call does (the ingress path never decodes and never
touches `needed_bytes`), so any number of subsequent `next()` pulls yields
the same sequence of results. -/
theorem chunking_invariance (m : ModbusState) (chunks : List (List Nat))
    (k : Nat) (hm : m.buffer.length ≤ m.cap) :
    ingestAll m chunks = onDataReceived m chunks.flatten
    ∧ (ingestAll m chunks).map (fun s => pullSeq s k)
      = (onDataReceived m chunks.flatten).map (fun s => pullSeq s k) := by
  have h := ingestAll_join m chunks hm
  exact ⟨h, by rw [h]⟩

/-- C8 witness: the test frame split `11 01 00 13 / 00 25 0E 84` fed in two
chunks reaches the same state and pull results as the single-shot feed. -/
theorem chunking_invariance_witness :
    ingestAll ⟨16, [], none⟩ [[17, 1, 0, 19], [0, 37, 14, 132]]
      = onDataReceived ⟨16, [], none⟩ ([[17, 1, 0, 19], [0, 37, 14, 132]] : List (List Nat)).flatten
    ∧ (ingestAll ⟨16, [], none⟩ [[17, 1, 0, 19], [0, 37, 14, 132]]).map (fun s => pullSeq s 2)
      = (onDataReceived ⟨16, [], none⟩ ([[17, 1, 0, 19], [0, 37, 14, 132]] : List (List Nat)).flatten).map
        (fun s => pullSeq s 2) :=
  chunking_invariance _ _ 2 (by decide)

/-- C9: every length the oracle reports is at least 8, and `parse_frame`
invoked with that length on any grant at least that long performs only
in-bounds accesses — it never reaches a panicking slice index. -/
theorem parse_frame_len_no_panic (s : List Nat) (n : Nat)
    (h : parseRequestLen s = .ok (some n)) :
    8 ≤ n ∧ ∀ grant : List Nat, n ≤ grant.length → parseFrame grant n ≠ .panic := by
  have h8 : 8 ≤ n := by
    unfold parseRequestLen at h
    split_ifs at h <;> simp at h <;> omega
  refine ⟨h8, ?_⟩
  intro grant hg
  have h2l : 2 ≤ grant.length := by omega
  unfold parseFrame
  by_cases hc : crc16 (grant.take n) ≠ 0
  · rw [if_pos hg, if_pos hc]
    simp
  · rw [if_pos hg, if_neg hc, if_pos h2l, if_pos (by omega : 2 ≤ n)]
    apply parseDispatch_ne_panic
    apply parse_read_request_isSome
    simp only [List.length_take, List.length_drop]
    omega

/-- C9 witness: the oracle reports 8 for a function-1 prefix, and
`parse_frame` on the full 8-byte test frame does not panic. -/
theorem parse_frame_len_no_panic_witness :
    8 ≤ 8 ∧ parseFrame [17, 1, 0, 19, 0, 37, 14, 132] 8 ≠ .panic :=
  ⟨(parse_frame_len_no_panic [17, 1] 8 (by decide)).1,
    (parse_frame_len_no_panic [17, 1] 8 (by decide)).2
      [17, 1, 0, 19, 0, 37, 14, 132] (by decide)⟩

/-- C10 witness: two slices of equal length that agree at indices 1 and 6
but differ in the slave byte and all payload bytes get the same length. -/
theorem parse_request_len_noninterference_witness :
    parseRequestLen [1, 15, 0, 0, 0, 0, 3, 200] =
      parseRequestLen [2, 15, 9, 9, 9, 9, 3, 201] :=
  parse_request_len_noninterference _ _ rfl rfl (fun _ _ => rfl)

end ModbusRs
